import Mathlib

/-!
Shallow embedding of the relay automation core of the
ESP32 Monitoring/Automation controller
(src/src/components/RelayManager.cpp, RelayManager.h,
src/src/utils/Constants.h).

Modelling conventions:
* the relay table (a std map keyed by uint8 ids 1..8) is a function
  from Nat to RelayConfig; the public operations validate ids exactly
  as the source does;
* machine integers (uint8/uint16/uint32, millis) are Nat;
* float thresholds and sensor values are rationals (only their order
  matters to the control logic);
* the mutex is modelled as always acquired: every claim is settled on
  the functional, lock-success path, as the spec's atomicity model
  prescribes;
* digitalWrite is modelled by the pins field of the state;
* the mutually recursive pair physicallyControlRelay /
  manageDependentRelays terminates because each recursive call turns
  one more relay from on to off; the embedding makes this explicit
  with a fuel parameter (fuel 9 dominates every run over 8 relays).
-/

inductive RelayState where
  | OFF : RelayState
  | ON : RelayState
  | AUTO : RelayState
deriving DecidableEq, Repr

inductive RelayTrigger where
  | MANUAL : RelayTrigger
  | SCHEDULE : RelayTrigger
  | ENVIRONMENTAL : RelayTrigger
  | DEPENDENT : RelayTrigger
deriving DecidableEq, Repr

structure TimeRange where
  startHour : Nat
  startMinute : Nat
  endHour : Nat
  endMinute : Nat
deriving DecidableEq, Repr

/-- TimeRange.isInRange from RelayManager.h (overnight wrap when end < start). -/
def TimeRange.isInRange (t : TimeRange) (hour minute : Nat) : Bool :=
  let currentMinutes := hour * 60 + minute
  let startMinutes := t.startHour * 60 + t.startMinute
  let endMinutes := t.endHour * 60 + t.endMinute
  if startMinutes ≤ endMinutes then
    decide (startMinutes ≤ currentMinutes) && decide (currentMinutes ≤ endMinutes)
  else
    decide (startMinutes ≤ currentMinutes) || decide (currentMinutes ≤ endMinutes)

/-- Default TimeRange constructor: 00:00 - 23:59. -/
def TimeRange.default : TimeRange := ⟨0, 0, 23, 59⟩

structure RelayConfig where
  relayId : Nat
  name : String
  pin : Nat
  operatingTime : TimeRange
  visible : Bool
  hasDependency : Bool
  dependsOnRelay : Nat
  isOn : Bool
  state : RelayState
  lastTrigger : RelayTrigger
  overrideUntil : Nat
deriving DecidableEq, Repr

structure CycleConfig where
  onDurationMinutes : Nat
  intervalMinutes : Nat
deriving DecidableEq, Repr

structure EnvironmentalThresholds where
  humidityLow : ℚ
  humidityHigh : ℚ
  temperatureLow : ℚ
  temperatureHigh : ℚ
  co2Low : ℚ
  co2High : ℚ
deriving DecidableEq, Repr

/-- The RelayManager state: relay table, global config blocks and the
modelled physical pin levels. -/
structure RMState where
  relayConfigs : Nat → RelayConfig
  pins : Nat → Bool
  thresholds : EnvironmentalThresholds
  cycleConfig : CycleConfig
  overrideDurationMinutes : Nat
  isInit : Bool

def RMState.setRelay (s : RMState) (id : Nat) (c : RelayConfig) : RMState :=
  { s with relayConfigs := fun j => if j = id then c else s.relayConfigs j }

def RMState.writePin (s : RMState) (p : Nat) (level : Bool) : RMState :=
  { s with pins := fun q => if q = p then level else s.pins q }

def relayIds : List Nat := [1, 2, 3, 4, 5, 6, 7, 8]

/-- One iteration of the cascade loop of
RelayManager::manageDependentRelays (RelayManager.cpp 734-740): a relay
that depends on the one being turned off and is on is itself turned off
with trigger DEPENDENT, through the given recursive driver. -/
def cascadeStep (pcr : Nat → Bool → RelayTrigger → RMState → RMState) (relayId : Nat)
    (acc : RMState) (j : Nat) : RMState :=
  let e := acc.relayConfigs j
  if e.hasDependency = true ∧ e.dependsOnRelay = relayId ∧ e.isOn = true then
    pcr j false RelayTrigger.DEPENDENT acc
  else acc

/-- The anyDependentOn scan of RelayManager::manageDependentRelays
(RelayManager.cpp 744-752): is any relay other than 1 that depends on
relay 1 still on? -/
def anyDependentOn (s : RMState) : Bool :=
  relayIds.any (fun j =>
    let e := s.relayConfigs j
    decide (j ≠ 1) && e.hasDependency && decide (e.dependsOnRelay = 1) && e.isOn)

/-- RelayManager::manageDependentRelays on the turn-off path
(RelayManager.cpp 728-759), parameterised by the recursive driver: first
the cascade loop over the whole table, then — only when relay 1 itself
is the relay being turned off — the hub back-off check.  The source's
early return when turnOn is true is inlined at the single call site,
which only reaches this code when turning off. -/
def manageDependentRelaysWith (pcr : Nat → Bool → RelayTrigger → RMState → RMState)
    (relayId : Nat) (s1 : RMState) : RMState :=
  let s2 := relayIds.foldl (cascadeStep pcr relayId) s1
  if relayId = 1 then
    if anyDependentOn s2 then s2
    else pcr 1 false RelayTrigger.DEPENDENT s2
  else s2

/-- RelayManager::physicallyControlRelay (RelayManager.cpp 658-696).
Only acts when the commanded level differs from the current isOn; on a
real change it drives the pin, records isOn and lastTrigger, and on a
turn-off runs the manageDependentRelays cascade.  The fuel argument
bounds the mutual recursion depth; fuel 9 dominates every run, since
each recursive call requires one more relay to go from on to off. -/
def physicallyControlRelayAux : Nat → Nat → Bool → RelayTrigger → RMState → RMState
  | 0, _, _, _, s => s
  | fuel + 1, relayId, turnOn, trigger, s =>
    if relayId < 1 ∨ 8 < relayId then s
    else
      let c := s.relayConfigs relayId
      if c.isOn = turnOn then s
      else
        let s1 := (s.writePin c.pin turnOn).setRelay relayId
          { c with isOn := turnOn, lastTrigger := trigger }
        if turnOn then s1
        else manageDependentRelaysWith (physicallyControlRelayAux fuel) relayId s1

/-- RelayManager::manageDependentRelays with the recursion closed off at
the given fuel. -/
def manageDependentRelays (fuel relayId : Nat) (s : RMState) : RMState :=
  manageDependentRelaysWith (physicallyControlRelayAux fuel) relayId s

/-- Fuel that dominates every cascade over the 8-relay table. -/
def relayFuel : Nat := 9

def physicallyControlRelay (relayId : Nat) (turnOn : Bool) (trigger : RelayTrigger)
    (s : RMState) : RMState :=
  physicallyControlRelayAux relayFuel relayId turnOn trigger s

/-- The dependency-ensure block that precedes every turn-on in the
source (RelayManager.cpp 523-531 and the copies at 855-862, 912-919,
950-957, 1012-1019): when the relay has a dependency whose relay is
off, turn that relay on first with trigger DEPENDENT. -/
def ensureDependencyOn (relayId : Nat) (s : RMState) : RMState :=
  if (s.relayConfigs relayId).hasDependency = true then
    if (s.relayConfigs ((s.relayConfigs relayId).dependsOnRelay)).isOn = false then
      physicallyControlRelay ((s.relayConfigs relayId).dependsOnRelay) true
        RelayTrigger.DEPENDENT s
    else s
  else s

/-- RelayManager::setRelayDependency (RelayManager.cpp 331-363): rejects
ids outside 1..8 and, when a dependency is requested, targets outside
1..8 or equal to the relay itself; otherwise stores the edge with no
reconciliation of isOn. -/
def setRelayDependency (relayId : Nat) (hasDependency : Bool) (dependsOnRelay : Nat)
    (s : RMState) : Bool × RMState :=
  if relayId < 1 ∨ 8 < relayId then (false, s)
  else if hasDependency = true ∧ (dependsOnRelay < 1 ∨ 8 < dependsOnRelay ∨ dependsOnRelay = relayId) then
    (false, s)
  else
    (true, s.setRelay relayId
      { s.relayConfigs relayId with hasDependency := hasDependency, dependsOnRelay := dependsOnRelay })

/-- RelayManager::setCycleConfig (RelayManager.cpp 383-404). -/
def setCycleConfig (onDurationMinutes intervalMinutes : Nat) (s : RMState) : Bool × RMState :=
  if intervalMinutes ≤ onDurationMinutes then (false, s)
  else (true, { s with cycleConfig := ⟨onDurationMinutes, intervalMinutes⟩ })

/-- RelayManager::setEnvironmentalThresholds (RelayManager.cpp 420-450):
rejects any low value not strictly below its paired high value; on
success replaces all six stored fields. -/
def setEnvironmentalThresholds (humidityLow humidityHigh temperatureLow temperatureHigh
    co2Low co2High : ℚ) (s : RMState) : Bool × RMState :=
  if humidityHigh ≤ humidityLow ∨ temperatureHigh ≤ temperatureLow ∨ co2High ≤ co2Low then
    (false, s)
  else
    (true, { s with thresholds :=
      ⟨humidityLow, humidityHigh, temperatureLow, temperatureHigh, co2Low, co2High⟩ })

/-- RelayManager::setOverrideDuration (RelayManager.cpp 472-490). -/
def setOverrideDuration (minutes : Nat) (s : RMState) : Bool × RMState :=
  if minutes = 0 then (false, s)
  else (true, { s with overrideDurationMinutes := minutes })

/-- RelayManager::setRelayState (RelayManager.cpp 506-554): stores the
requested mode; a non-AUTO mode stamps overrideUntil, eagerly turns the
dependency on first when needed (trigger DEPENDENT) and then drives the
relay (trigger MANUAL); AUTO clears the expiry. -/
def setRelayState (relayId : Nat) (st : RelayState) (now : Nat) (s : RMState) : Bool × RMState :=
  if relayId < 1 ∨ 8 < relayId then (false, s)
  else
    let s1 := s.setRelay relayId { s.relayConfigs relayId with state := st }
    if st ≠ RelayState.AUTO then
      let overrideDurationMs := s1.overrideDurationMinutes * 60 * 1000
      let s2 := s1.setRelay relayId
        { s1.relayConfigs relayId with overrideUntil := now + overrideDurationMs }
      let turnOn : Bool := decide (st = RelayState.ON)
      let s3 := if turnOn = true then ensureDependencyOn relayId s2 else s2
      (true, physicallyControlRelay relayId turnOn RelayTrigger.MANUAL s3)
    else
      (true, s1.setRelay relayId { s1.relayConfigs relayId with overrideUntil := 0 })

/-- RelayManager::getRelayState (RelayManager.cpp 556-586): reads the
mode and, when a non-AUTO mode with a nonzero overrideUntil is past its
expiry (millis strictly greater), lazily reverts it to AUTO and clears
the expiry before returning. -/
def getRelayState (relayId : Nat) (now : Nat) (s : RMState) : RelayState × RMState :=
  if relayId < 1 ∨ 8 < relayId then (RelayState.OFF, s)
  else
    let c := s.relayConfigs relayId
    if c.state ≠ RelayState.AUTO ∧ 0 < c.overrideUntil ∧ c.overrideUntil < now then
      (RelayState.AUTO, s.setRelay relayId { c with state := RelayState.AUTO, overrideUntil := 0 })
    else (c.state, s)

/-- RelayManager::setRelayPin (RelayManager.cpp 153-183): quiesces the
old pin LOW, repoints, and drives the new pin to the relay's isOn. -/
def setRelayPin (relayId pin : Nat) (s : RMState) : Bool × RMState :=
  if relayId < 1 ∨ 8 < relayId then (false, s)
  else
    let currentPin := (s.relayConfigs relayId).pin
    if currentPin ≠ pin then
      let s := s.writePin currentPin false
      let s := s.setRelay relayId { s.relayConfigs relayId with pin := pin }
      (true, s.writePin pin (s.relayConfigs relayId).isOn)
    else (true, s)

/-- RelayManager::setRelayName (RelayManager.cpp 203-222). -/
def setRelayName (relayId : Nat) (name : String) (s : RMState) : Bool × RMState :=
  if relayId < 1 ∨ 8 < relayId then (false, s)
  else (true, s.setRelay relayId { s.relayConfigs relayId with name := name })

/-- RelayManager::setRelayVisibility (RelayManager.cpp 291-311). -/
def setRelayVisibility (relayId : Nat) (visible : Bool) (s : RMState) : Bool × RMState :=
  if relayId < 1 ∨ 8 < relayId then (false, s)
  else (true, s.setRelay relayId { s.relayConfigs relayId with visible := visible })

/-- RelayManager::setRelayOperatingTime (RelayManager.cpp 242-271). -/
def setRelayOperatingTime (relayId startHour startMinute endHour endMinute : Nat)
    (s : RMState) : Bool × RMState :=
  if relayId < 1 ∨ 8 < relayId then (false, s)
  else if 23 < startHour ∨ 59 < startMinute ∨ 23 < endHour ∨ 59 < endMinute then (false, s)
  else (true, s.setRelay relayId
    { s.relayConfigs relayId with operatingTime := ⟨startHour, startMinute, endHour, endMinute⟩ })

/-! ## The control loop (RelayManager::relayControlTask, RelayManager.cpp 761-1039) -/

structure SensorReading where
  temperature : ℚ
  humidity : ℚ
  co2 : ℚ
  valid : Bool
deriving DecidableEq, Repr

/-- Per-tick inputs snapshotted once by the control task: local time and
the three sensor readings (with the overall getSensorReadings result). -/
structure TickInputs where
  hour : Nat
  minute : Nat
  hasReadings : Bool
  upperDht : SensorReading
  lowerDht : SensorReading
  scd : SensorReading
deriving DecidableEq, Repr

def TickInputs.currentMinuteOfDay (i : TickInputs) : Nat := i.hour * 60 + i.minute

/-- Count of valid sensors, zero when getSensorReadings failed
(RelayManager.cpp 782-810). -/
def TickInputs.validSensors (i : TickInputs) : Nat :=
  if i.hasReadings then
    (if i.upperDht.valid then 1 else 0) + (if i.lowerDht.valid then 1 else 0)
      + (if i.scd.valid then 1 else 0)
  else 0

/-- Exact rational addition in a kernel-reducible form (the library's
Rat.add is marked irreducible); ratAdd_eq_add shows it agrees with +. -/
def ratAdd (a b : ℚ) : ℚ :=
  mkRat (a.num * (b.den : Int) + b.num * (a.den : Int)) (a.den * b.den)

/-- Exact division of a rational by a natural number in a
kernel-reducible form; ratDivNat_eq_div shows it agrees with /. -/
def ratDivNat (a : ℚ) (n : Nat) : ℚ := mkRat a.num (a.den * n)

def TickInputs.sumTemperature (i : TickInputs) : ℚ :=
  ratAdd (ratAdd (if i.upperDht.valid then i.upperDht.temperature else 0)
    (if i.lowerDht.valid then i.lowerDht.temperature else 0))
    (if i.scd.valid then i.scd.temperature else 0)

def TickInputs.sumHumidity (i : TickInputs) : ℚ :=
  ratAdd (ratAdd (if i.upperDht.valid then i.upperDht.humidity else 0)
    (if i.lowerDht.valid then i.lowerDht.humidity else 0))
    (if i.scd.valid then i.scd.humidity else 0)

def TickInputs.avgTemperature (i : TickInputs) : ℚ :=
  if 0 < i.validSensors then ratDivNat i.sumTemperature i.validSensors else 0

def TickInputs.avgHumidity (i : TickInputs) : ℚ :=
  if 0 < i.validSensors then ratDivNat i.sumHumidity i.validSensors else 0

/-- Relay 2 (UV Light) cycle rule: on phase of the duty cycle
(RelayManager.cpp 850-851). -/
def relay2ShouldBeOn (currentMinuteOfDay : Nat) (cc : CycleConfig) : Bool :=
  decide (currentMinuteOfDay % cc.intervalMinutes < cc.onDurationMinutes)

/-- Relay 3 (Grow Light) cycle rule: complement phase of the duty cycle
(RelayManager.cpp 876-877). -/
def relay3ShouldBeOn (currentMinuteOfDay : Nat) (cc : CycleConfig) : Bool :=
  decide (cc.onDurationMinutes ≤ currentMinuteOfDay % cc.intervalMinutes)

/-- One iteration of the per-relay body of RelayManager::relayControlTask
(RelayManager.cpp 813-1034): skip when uninitialised or not AUTO (lazily
reverting an expired override via getRelayState), then dispatch on the
relay id. -/
def controlRelayStep (inputs : TickInputs) (now : Nat) (relayId : Nat) (s : RMState) : RMState :=
  if s.isInit = false then s
  else
    let p := getRelayState relayId now s
    let s := p.2
    if p.1 ≠ RelayState.AUTO then s
    else
      let config := s.relayConfigs relayId
      let inOperatingTime := config.operatingTime.isInRange inputs.hour inputs.minute
      match relayId with
      | 1 => s
      | 2 =>
        if inOperatingTime then
          if relay2ShouldBeOn inputs.currentMinuteOfDay s.cycleConfig then
            physicallyControlRelay 2 true RelayTrigger.SCHEDULE (ensureDependencyOn 2 s)
          else physicallyControlRelay 2 false RelayTrigger.SCHEDULE s
        else physicallyControlRelay 2 false RelayTrigger.SCHEDULE s
      | 3 =>
        if inOperatingTime then
          if relay3ShouldBeOn inputs.currentMinuteOfDay s.cycleConfig then
            physicallyControlRelay 3 true RelayTrigger.SCHEDULE s
          else physicallyControlRelay 3 false RelayTrigger.SCHEDULE s
        else physicallyControlRelay 3 false RelayTrigger.SCHEDULE s
      | 4 =>
        if inOperatingTime then
          let shouldBeOn := relay2ShouldBeOn inputs.currentMinuteOfDay s.cycleConfig
          let shouldBeOn :=
            if inputs.scd.valid = true ∧ inputs.scd.co2 < s.thresholds.co2Low then true
            else shouldBeOn
          let shouldBeOn := if (s.relayConfigs 5).isOn = true then true else shouldBeOn
          if shouldBeOn then
            physicallyControlRelay 4 true RelayTrigger.SCHEDULE (ensureDependencyOn 4 s)
          else physicallyControlRelay 4 false RelayTrigger.SCHEDULE s
        else physicallyControlRelay 4 false RelayTrigger.SCHEDULE s
      | 5 =>
        if inOperatingTime = true ∧ 0 < inputs.validSensors then
          let shouldBeOn :=
            if inputs.avgHumidity < s.thresholds.humidityLow then true
            else if s.thresholds.humidityHigh ≤ inputs.avgHumidity then false
            else config.isOn
          let shouldBeOn := if (s.relayConfigs 7).isOn = true then true else shouldBeOn
          if shouldBeOn then
            physicallyControlRelay 5 true RelayTrigger.ENVIRONMENTAL (ensureDependencyOn 5 s)
          else physicallyControlRelay 5 false RelayTrigger.ENVIRONMENTAL s
        else physicallyControlRelay 5 false RelayTrigger.SCHEDULE s
      | 6 =>
        if 0 < inputs.validSensors then
          let shouldBeOn :=
            if inputs.avgTemperature < s.thresholds.temperatureLow then true
            else if s.thresholds.temperatureHigh ≤ inputs.avgTemperature then false
            else config.isOn
          if shouldBeOn then physicallyControlRelay 6 true RelayTrigger.ENVIRONMENTAL s
          else physicallyControlRelay 6 false RelayTrigger.ENVIRONMENTAL s
        else s
      | 7 =>
        if inOperatingTime then
          let shouldBeOn := relay2ShouldBeOn inputs.currentMinuteOfDay s.cycleConfig
          let shouldBeOn :=
            if inputs.scd.valid = true then
              if s.thresholds.co2High < inputs.scd.co2 then true
              else if inputs.scd.co2 < s.thresholds.co2Low ∧ shouldBeOn = true then false
              else shouldBeOn
            else shouldBeOn
          if shouldBeOn then
            physicallyControlRelay 7 true RelayTrigger.ENVIRONMENTAL (ensureDependencyOn 7 s)
          else physicallyControlRelay 7 false RelayTrigger.ENVIRONMENTAL s
        else physicallyControlRelay 7 false RelayTrigger.SCHEDULE s
      | _ => s

/-! ## Initial state (RelayManager::initRelays, RelayManager.cpp 49-151,
with the compiled-in defaults of src/src/utils/Constants.h) -/

def initRelayConfig (relayId : Nat) (name : String) (pin : Nat) (visible hasDependency : Bool)
    (dependsOnRelay : Nat) : RelayConfig :=
  { relayId := relayId, name := name, pin := pin, operatingTime := TimeRange.default,
    visible := visible, hasDependency := hasDependency, dependsOnRelay := dependsOnRelay,
    isOn := false, state := RelayState.AUTO, lastTrigger := RelayTrigger.MANUAL,
    overrideUntil := 0 }

/-- Entry the std map would default-construct for an id outside 1..8. -/
def defaultRelayConfig : RelayConfig :=
  { relayId := 0, name := "", pin := 0, operatingTime := TimeRange.default,
    visible := true, hasDependency := false, dependsOnRelay := 0,
    isOn := false, state := RelayState.OFF, lastTrigger := RelayTrigger.MANUAL,
    overrideUntil := 0 }

def initialRelayConfigs : Nat → RelayConfig
  | 1 => initRelayConfig 1 "Main PSU" 16 false false 0
  | 2 => initRelayConfig 2 "UV Light" 17 true true 1
  | 3 => initRelayConfig 3 "Grow Light" 19 true false 0
  | 4 => initRelayConfig 4 "Tub Fans" 26 true true 1
  | 5 => initRelayConfig 5 "Humidifier" 33 true true 1
  | 6 => initRelayConfig 6 "Heater" 23 true false 0
  | 7 => initRelayConfig 7 "IN/OUT Fans" 25 true true 1
  | 8 => initRelayConfig 8 "Reserved" 35 false false 0
  | _ => defaultRelayConfig

/-- State right after begin() and initRelays(): all relays off, AUTO,
trigger MANUAL, pins driven LOW, default thresholds 50/85 %, 20/24 °C,
1000/1600 ppm, cycle 5/60 min, override duration 5 min. -/
def initialState : RMState :=
  { relayConfigs := initialRelayConfigs,
    pins := fun _ => false,
    thresholds := ⟨50, 85, 20, 24, 1000, 1600⟩,
    cycleConfig := ⟨5, 60⟩,
    overrideDurationMinutes := 5,
    isInit := true }

/-- States reachable from the initial state through the public mutating
operations of the RelayManager, including lazy-expiry reads and control
ticks. -/
inductive Reachable : RMState → Prop where
  | init : Reachable initialState
  | dependency (id : Nat) (hd : Bool) (dep : Nat) {s : RMState} :
      Reachable s → Reachable (setRelayDependency id hd dep s).2
  | cycleConfig (onD interval : Nat) {s : RMState} :
      Reachable s → Reachable (setCycleConfig onD interval s).2
  | thresholds (hl hh tl th cl ch : ℚ) {s : RMState} :
      Reachable s → Reachable (setEnvironmentalThresholds hl hh tl th cl ch s).2
  | overrideDuration (m : Nat) {s : RMState} :
      Reachable s → Reachable (setOverrideDuration m s).2
  | relayState (id : Nat) (st : RelayState) (now : Nat) {s : RMState} :
      Reachable s → Reachable (setRelayState id st now s).2
  | stateRead (id now : Nat) {s : RMState} :
      Reachable s → Reachable (getRelayState id now s).2
  | relayPin (id pin : Nat) {s : RMState} :
      Reachable s → Reachable (setRelayPin id pin s).2
  | relayName (id : Nat) (n : String) {s : RMState} :
      Reachable s → Reachable (setRelayName id n s).2
  | visibility (id : Nat) (v : Bool) {s : RMState} :
      Reachable s → Reachable (setRelayVisibility id v s).2
  | operatingTime (id sh sm eh em : Nat) {s : RMState} :
      Reachable s → Reachable (setRelayOperatingTime id sh sm eh em s).2
  | tick (i : TickInputs) (now id : Nat) {s : RMState} :
      Reachable s → Reachable (controlRelayStep i now id s)

/-- Dependency safety: a relay that is on and has a dependency has its
dependency on as well. -/
def DepSafe (s : RMState) : Prop :=
  ∀ id, 1 ≤ id → id ≤ 8 →
    (s.relayConfigs id).hasDependency = true →
    (s.relayConfigs id).isOn = true →
    (s.relayConfigs ((s.relayConfigs id).dependsOnRelay)).isOn = true

/-! ## Faithfulness of the reducible rational arithmetic -/

theorem ratAdd_eq_add (a b : ℚ) : ratAdd a b = a + b := by
  rw [ratAdd, Rat.mkRat_eq_div]
  push_cast
  conv_rhs => rw [← Rat.num_div_den a, ← Rat.num_div_den b]
  rw [div_add_div _ _ (by exact_mod_cast a.den_nz) (by exact_mod_cast b.den_nz)]
  ring_nf

theorem ratDivNat_eq_div (a : ℚ) (n : Nat) : ratDivNat a n = a / (n : ℚ) := by
  rw [ratDivNat, Rat.mkRat_eq_div]
  rcases Nat.eq_zero_or_pos n with h | h
  · subst h; simp
  · push_cast
    rw [div_mul_eq_div_div, Rat.num_div_den]

/-! ## Basic state-access lemmas -/

@[simp] theorem setRelay_relayConfigs (s : RMState) (id : Nat) (c : RelayConfig) (j : Nat) :
    (s.setRelay id c).relayConfigs j = if j = id then c else s.relayConfigs j := rfl

@[simp] theorem setRelay_pins (s : RMState) (id : Nat) (c : RelayConfig) :
    (s.setRelay id c).pins = s.pins := rfl

@[simp] theorem setRelay_thresholds (s : RMState) (id : Nat) (c : RelayConfig) :
    (s.setRelay id c).thresholds = s.thresholds := rfl

@[simp] theorem setRelay_cycleConfig (s : RMState) (id : Nat) (c : RelayConfig) :
    (s.setRelay id c).cycleConfig = s.cycleConfig := rfl

@[simp] theorem setRelay_overrideDuration (s : RMState) (id : Nat) (c : RelayConfig) :
    (s.setRelay id c).overrideDurationMinutes = s.overrideDurationMinutes := rfl

@[simp] theorem setRelay_isInit (s : RMState) (id : Nat) (c : RelayConfig) :
    (s.setRelay id c).isInit = s.isInit := rfl

@[simp] theorem writePin_relayConfigs (s : RMState) (p : Nat) (l : Bool) :
    (s.writePin p l).relayConfigs = s.relayConfigs := rfl

@[simp] theorem writePin_thresholds (s : RMState) (p : Nat) (l : Bool) :
    (s.writePin p l).thresholds = s.thresholds := rfl

@[simp] theorem writePin_cycleConfig (s : RMState) (p : Nat) (l : Bool) :
    (s.writePin p l).cycleConfig = s.cycleConfig := rfl

@[simp] theorem writePin_overrideDuration (s : RMState) (p : Nat) (l : Bool) :
    (s.writePin p l).overrideDurationMinutes = s.overrideDurationMinutes := rfl

@[simp] theorem writePin_isInit (s : RMState) (p : Nat) (l : Bool) :
    (s.writePin p l).isInit = s.isInit := rfl

/-- A relay record with its isOn and lastTrigger replaced: every write
the cascade performs has this shape. -/
def RelayConfig.drive (c : RelayConfig) (o : Bool) (t : RelayTrigger) : RelayConfig :=
  { c with isOn := o, lastTrigger := t }

@[simp] theorem drive_hasDependency (c : RelayConfig) (o : Bool) (t : RelayTrigger) :
    (c.drive o t).hasDependency = c.hasDependency := rfl

@[simp] theorem drive_dependsOnRelay (c : RelayConfig) (o : Bool) (t : RelayTrigger) :
    (c.drive o t).dependsOnRelay = c.dependsOnRelay := rfl

@[simp] theorem drive_state (c : RelayConfig) (o : Bool) (t : RelayTrigger) :
    (c.drive o t).state = c.state := rfl

@[simp] theorem drive_overrideUntil (c : RelayConfig) (o : Bool) (t : RelayTrigger) :
    (c.drive o t).overrideUntil = c.overrideUntil := rfl

@[simp] theorem drive_operatingTime (c : RelayConfig) (o : Bool) (t : RelayTrigger) :
    (c.drive o t).operatingTime = c.operatingTime := rfl

@[simp] theorem drive_pin (c : RelayConfig) (o : Bool) (t : RelayTrigger) :
    (c.drive o t).pin = c.pin := rfl

@[simp] theorem drive_isOn (c : RelayConfig) (o : Bool) (t : RelayTrigger) :
    (c.drive o t).isOn = o := rfl

@[simp] theorem drive_lastTrigger (c : RelayConfig) (o : Bool) (t : RelayTrigger) :
    (c.drive o t).lastTrigger = t := rfl

theorem drive_self (c : RelayConfig) : c.drive c.isOn c.lastTrigger = c := rfl

theorem drive_drive (c : RelayConfig) (o o' : Bool) (t t' : RelayTrigger) :
    (c.drive o t).drive o' t' = c.drive o' t' := rfl

/-- Reachability of one relay record from another by drive writes. -/
def DriveReach (x y : RelayConfig) : Prop := ∃ o t, y = x.drive o t

theorem driveReach_refl (x : RelayConfig) : DriveReach x x :=
  ⟨x.isOn, x.lastTrigger, (drive_self x).symm⟩

theorem driveReach_trans {x y z : RelayConfig} (h1 : DriveReach x y) (h2 : DriveReach y z) :
    DriveReach x z := by
  obtain ⟨o, t, rfl⟩ := h1
  obtain ⟨o', t', rfl⟩ := h2
  exact ⟨o', t', (drive_drive x o o' t t').symm⟩

/-- Change tracking within a turn-off cascade: either untouched, or
turned from on to off with trigger DEPENDENT recorded. -/
def OffDi (x y : RelayConfig) : Prop :=
  y = x ∨ (y.isOn = false ∧ y.lastTrigger = RelayTrigger.DEPENDENT ∧ x.isOn = true)

theorem offDi_refl (x : RelayConfig) : OffDi x x := Or.inl rfl

theorem offDi_trans {x y z : RelayConfig} (h1 : OffDi x y) (h2 : OffDi y z) : OffDi x z := by
  rcases h1 with rfl | ⟨hy1, hy2, hy3⟩
  · exact h2
  · rcases h2 with rfl | ⟨hz1, hz2, hz3⟩
    · exact Or.inr ⟨hy1, hy2, hy3⟩
    · rw [hy1] at hz3; cases hz3

/-! ## Generic fold lemmas -/

theorem foldl_invariant {α β : Type _} (P : α → Prop) (f : α → β → α)
    (hstep : ∀ a b, P a → P (f a b)) :
    ∀ (l : List β) (a : α), P a → P (l.foldl f a) := by
  intro l
  induction l with
  | nil => intro a h; exact h
  | cons b rest ih => intro a h; exact ih (f a b) (hstep a b h)

theorem foldl_rel {α β : Type _} (R : α → α → Prop) (hrefl : ∀ x, R x x)
    (htrans : ∀ x y z, R x y → R y z → R x z) (f : α → β → α)
    (hstep : ∀ a b, R a (f a b)) :
    ∀ (l : List β) (a : α), R a (l.foldl f a) := by
  intro l
  induction l with
  | nil => intro a; exact hrefl a
  | cons b rest ih => intro a; exact htrans _ _ _ (hstep a b) (ih (f a b))

theorem foldl_establishes {α β : Type _} (I Q : α → Prop) (f : α → β → α) (b : β)
    (hI : ∀ a c, I a → I (f a c))
    (hQ : ∀ a c, Q a → Q (f a c))
    (hEst : ∀ a, I a → Q (f a b)) :
    ∀ (l : List β) (a : α), b ∈ l → I a → Q (l.foldl f a) := by
  intro l
  induction l with
  | nil => intro a hmem; cases hmem
  | cons c rest ih =>
    intro a hmem hIa
    rcases List.mem_cons.mp hmem with rfl | hmem'
    · exact foldl_invariant Q f hQ rest (f a b) (hEst a hIa)
    · exact ih (f a c) hmem' (hI a c hIa)

/-! ## Lemmas about the turn-off cascade -/

theorem mdrWith_rel {R : RMState → RMState → Prop}
    (hrefl : ∀ x, R x x) (htrans : ∀ x y z, R x y → R y z → R x z)
    (pcr : Nat → Bool → RelayTrigger → RMState → RMState) (relayId : Nat)
    (hstep : ∀ acc j, R acc (cascadeStep pcr relayId acc j))
    (hhub : relayId = 1 → ∀ acc, R acc (pcr 1 false RelayTrigger.DEPENDENT acc)) :
    ∀ s1 : RMState, R s1 (manageDependentRelaysWith pcr relayId s1) := by
  intro s1
  simp only [manageDependentRelaysWith]
  have h2 : R s1 (relayIds.foldl (cascadeStep pcr relayId) s1) :=
    foldl_rel R hrefl htrans _ hstep relayIds s1
  split
  · split
    · exact h2
    · rename_i h1 _
      exact htrans _ _ _ h2 (hhub h1 _)
  · exact h2

/-- The no-op drive: commanding a relay to the level it already has
leaves the whole state untouched (RelayManager.cpp 669). -/
theorem pcr_noop (fuel id : Nat) (turnOn : Bool) (tr : RelayTrigger) (s : RMState)
    (h : (s.relayConfigs id).isOn = turnOn) :
    physicallyControlRelayAux fuel id turnOn tr s = s := by
  cases fuel with
  | zero => rfl
  | succ fuel =>
    simp only [physicallyControlRelayAux]
    rw [if_pos h]
    split <;> rfl

/-- An out-of-range id leaves the state untouched. -/
theorem pcr_invalid (fuel id : Nat) (turnOn : Bool) (tr : RelayTrigger) (s : RMState)
    (hv : id < 1 ∨ 8 < id) :
    physicallyControlRelayAux fuel id turnOn tr s = s := by
  cases fuel with
  | zero => rfl
  | succ fuel =>
    simp only [physicallyControlRelayAux]
    rw [if_pos hv]

/-- Unfolding a real turn-off: record the write, then run the cascade. -/
theorem pcr_succ_off (fuel id : Nat) (tr : RelayTrigger) (s : RMState)
    (hv : ¬(id < 1 ∨ 8 < id)) (hon : (s.relayConfigs id).isOn = true) :
    physicallyControlRelayAux (fuel + 1) id false tr s
      = manageDependentRelaysWith (physicallyControlRelayAux fuel) id
          ((s.writePin (s.relayConfigs id).pin false).setRelay id
            { s.relayConfigs id with isOn := false, lastTrigger := tr }) := by
  simp only [physicallyControlRelayAux]
  rw [if_neg hv, if_neg (by simp [hon])]
  simp

/-- Unfolding a real turn-on: just the one record write, no cascade. -/
theorem pcr_succ_on (fuel id : Nat) (tr : RelayTrigger) (s : RMState)
    (hv : ¬(id < 1 ∨ 8 < id)) (hoff : (s.relayConfigs id).isOn = false) :
    physicallyControlRelayAux (fuel + 1) id true tr s
      = (s.writePin (s.relayConfigs id).pin true).setRelay id
          { s.relayConfigs id with isOn := true, lastTrigger := tr } := by
  simp only [physicallyControlRelayAux]
  rw [if_neg hv, if_neg (by simp [hoff])]
  simp

/-- Every relay record evolves only by drive writes under the cascade:
all fields other than isOn and lastTrigger are preserved. -/
theorem pcr_drive (fuel : Nat) :
    ∀ (id : Nat) (turnOn : Bool) (tr : RelayTrigger) (s : RMState) (j : Nat),
    DriveReach (s.relayConfigs j)
      ((physicallyControlRelayAux fuel id turnOn tr s).relayConfigs j) := by
  induction fuel with
  | zero => intro _ _ _ s j; exact driveReach_refl _
  | succ fuel IH =>
    intro id turnOn tr s j
    simp only [physicallyControlRelayAux]
    split
    · exact driveReach_refl _
    split
    · exact driveReach_refl _
    have h1 : DriveReach (s.relayConfigs j)
        (((s.writePin (s.relayConfigs id).pin turnOn).setRelay id
          { s.relayConfigs id with isOn := turnOn, lastTrigger := tr }).relayConfigs j) := by
      by_cases hj : j = id
      · subst hj
        exact ⟨turnOn, tr, by simp [RelayConfig.drive]⟩
      · simpa [hj] using driveReach_refl (s.relayConfigs j)
    split
    · exact h1
    · refine driveReach_trans h1
        (mdrWith_rel (R := fun a b => DriveReach (a.relayConfigs j) (b.relayConfigs j))
          (fun x => driveReach_refl _) (fun x y z => driveReach_trans)
          (physicallyControlRelayAux fuel) id (fun acc b => ?_) (fun _ acc => IH _ _ _ acc j) _)
      simp only [cascadeStep]
      split
      · exact IH _ _ _ acc j
      · exact driveReach_refl _

theorem pcr_preserves_hasDependency (fuel id : Nat) (turnOn : Bool) (tr : RelayTrigger)
    (s : RMState) (j : Nat) :
    ((physicallyControlRelayAux fuel id turnOn tr s).relayConfigs j).hasDependency
      = (s.relayConfigs j).hasDependency := by
  obtain ⟨o, t, h⟩ := pcr_drive fuel id turnOn tr s j
  rw [h]; simp

theorem pcr_preserves_dependsOnRelay (fuel id : Nat) (turnOn : Bool) (tr : RelayTrigger)
    (s : RMState) (j : Nat) :
    ((physicallyControlRelayAux fuel id turnOn tr s).relayConfigs j).dependsOnRelay
      = (s.relayConfigs j).dependsOnRelay := by
  obtain ⟨o, t, h⟩ := pcr_drive fuel id turnOn tr s j
  rw [h]; simp

theorem pcr_preserves_state (fuel id : Nat) (turnOn : Bool) (tr : RelayTrigger)
    (s : RMState) (j : Nat) :
    ((physicallyControlRelayAux fuel id turnOn tr s).relayConfigs j).state
      = (s.relayConfigs j).state := by
  obtain ⟨o, t, h⟩ := pcr_drive fuel id turnOn tr s j
  rw [h]; simp

theorem pcr_preserves_operatingTime (fuel id : Nat) (turnOn : Bool) (tr : RelayTrigger)
    (s : RMState) (j : Nat) :
    ((physicallyControlRelayAux fuel id turnOn tr s).relayConfigs j).operatingTime
      = (s.relayConfigs j).operatingTime := by
  obtain ⟨o, t, h⟩ := pcr_drive fuel id turnOn tr s j
  rw [h]; simp

/-- Global configuration equality: the cascade touches only relay
records and pins. -/
def GlobEq (a b : RMState) : Prop :=
  b.thresholds = a.thresholds ∧ b.cycleConfig = a.cycleConfig
    ∧ b.overrideDurationMinutes = a.overrideDurationMinutes ∧ b.isInit = a.isInit

theorem globEq_refl (x : RMState) : GlobEq x x := ⟨rfl, rfl, rfl, rfl⟩

theorem globEq_trans {x y z : RMState} (h1 : GlobEq x y) (h2 : GlobEq y z) : GlobEq x z := by
  obtain ⟨a1, a2, a3, a4⟩ := h1
  obtain ⟨b1, b2, b3, b4⟩ := h2
  exact ⟨b1.trans a1, b2.trans a2, b3.trans a3, b4.trans a4⟩

theorem pcr_globals (fuel : Nat) :
    ∀ (id : Nat) (turnOn : Bool) (tr : RelayTrigger) (s : RMState),
    GlobEq s (physicallyControlRelayAux fuel id turnOn tr s) := by
  induction fuel with
  | zero => intro _ _ _ s; exact globEq_refl s
  | succ fuel IH =>
    intro id turnOn tr s
    simp only [physicallyControlRelayAux]
    split
    · exact globEq_refl s
    split
    · exact globEq_refl s
    have h1 : GlobEq s ((s.writePin (s.relayConfigs id).pin turnOn).setRelay id
        { s.relayConfigs id with isOn := turnOn, lastTrigger := tr }) :=
      ⟨rfl, rfl, rfl, rfl⟩
    split
    · exact h1
    · refine globEq_trans h1
        (mdrWith_rel (R := GlobEq) globEq_refl (fun x y z => globEq_trans)
          (physicallyControlRelayAux fuel) id (fun acc b => ?_) (fun _ acc => IH _ _ _ acc) _)
      simp only [cascadeStep]
      split
      · exact IH _ _ _ acc
      · exact globEq_refl acc

/-- Change tracking through a turn-off: a relay other than the target
(or any relay when the trigger is DEPENDENT) is either untouched or
went from on to off with trigger DEPENDENT. -/
theorem pcr_offDi (fuel : Nat) :
    ∀ (id : Nat) (tr : RelayTrigger) (s : RMState) (j : Nat),
    (j ≠ id ∨ tr = RelayTrigger.DEPENDENT) →
    OffDi (s.relayConfigs j) ((physicallyControlRelayAux fuel id false tr s).relayConfigs j) := by
  induction fuel with
  | zero => intro _ _ s j _; exact offDi_refl _
  | succ fuel IH =>
    intro id tr s j hj
    by_cases hv : id < 1 ∨ 8 < id
    · rw [pcr_invalid _ _ _ _ _ hv]; exact offDi_refl _
    by_cases hch : (s.relayConfigs id).isOn = false
    · rw [pcr_noop _ _ _ _ _ hch]; exact offDi_refl _
    have hon : (s.relayConfigs id).isOn = true := by revert hch; simp
    rw [pcr_succ_off fuel id tr s hv hon]
    have h1 : OffDi (s.relayConfigs j)
        (((s.writePin (s.relayConfigs id).pin false).setRelay id
          { s.relayConfigs id with isOn := false, lastTrigger := tr }).relayConfigs j) := by
      by_cases hj' : j = id
      · subst hj'
        rcases hj with hne | hdep
        · exact absurd rfl hne
        · subst hdep
          exact Or.inr ⟨by simp, by simp, hon⟩
      · simpa [hj'] using offDi_refl (s.relayConfigs j)
    refine offDi_trans h1 ?_
    exact mdrWith_rel (R := fun a b => OffDi (a.relayConfigs j) (b.relayConfigs j))
      (fun x => offDi_refl _) (fun x y z => offDi_trans)
      (physicallyControlRelayAux fuel) id
      (fun acc b => by
        simp only [cascadeStep]
        split
        · exact IH _ _ acc j (Or.inr rfl)
        · exact offDi_refl _)
      (fun _ acc => IH _ _ acc j (Or.inr rfl)) _

theorem pcr_off_frozen (fuel id : Nat) (tr : RelayTrigger) (s : RMState) (j : Nat)
    (hoff : (s.relayConfigs j).isOn = false) :
    (physicallyControlRelayAux fuel id false tr s).relayConfigs j = s.relayConfigs j := by
  by_cases hj : j = id
  · subst hj; rw [pcr_noop fuel j false tr s hoff]
  · rcases pcr_offDi fuel id tr s j (Or.inl hj) with h | ⟨_, _, h3⟩
    · exact h
    · rw [hoff] at h3; cases h3

/-- A turn-off with at least one unit of fuel leaves its target off. -/
theorem pcr_turnoff (fuel id : Nat) (tr : RelayTrigger) (s : RMState)
    (hfuel : 1 ≤ fuel) (h1 : 1 ≤ id) (h2 : id ≤ 8) :
    ((physicallyControlRelayAux fuel id false tr s).relayConfigs id).isOn = false := by
  obtain ⟨fuel, rfl⟩ : ∃ f, fuel = f + 1 := ⟨fuel - 1, by omega⟩
  have hv : ¬(id < 1 ∨ 8 < id) := by omega
  by_cases hch : (s.relayConfigs id).isOn = false
  · rw [pcr_noop _ _ _ _ _ hch]; exact hch
  have hon : (s.relayConfigs id).isOn = true := by revert hch; simp
  rw [pcr_succ_off fuel id tr s hv hon]
  have hmain := mdrWith_rel
    (R := fun a b => (a.relayConfigs id).isOn = false → (b.relayConfigs id).isOn = false)
    (fun x h => h) (fun x y z hxy hyz h => hyz (hxy h))
    (physicallyControlRelayAux fuel) id
    (fun acc b h => by
      simp only [cascadeStep]
      split
      · rw [pcr_off_frozen fuel b RelayTrigger.DEPENDENT acc id h]; exact h
      · exact h)
    (fun _ acc h => by rw [pcr_off_frozen fuel 1 RelayTrigger.DEPENDENT acc id h]; exact h)
    ((s.writePin (s.relayConfigs id).pin false).setRelay id
      { s.relayConfigs id with isOn := false, lastTrigger := tr })
  exact hmain (by simp)

/-- A turn-on touches no other relay record (the cascade only runs on
turn-offs, RelayManager.cpp 684-687). -/
theorem pcr_on_frame (fuel id : Nat) (tr : RelayTrigger) (s : RMState) (j : Nat)
    (hj : j ≠ id) :
    (physicallyControlRelayAux fuel id true tr s).relayConfigs j = s.relayConfigs j := by
  cases fuel with
  | zero => rfl
  | succ fuel =>
    by_cases hv : id < 1 ∨ 8 < id
    · rw [pcr_invalid _ _ _ _ _ hv]
    by_cases hch : (s.relayConfigs id).isOn = true
    · rw [pcr_noop _ _ _ _ _ hch]
    have hoff : (s.relayConfigs id).isOn = false := by revert hch; simp
    rw [pcr_succ_on fuel id tr s hv hoff]
    simp [hj]

/-- A turn-on with fuel leaves its target on. -/
theorem pcr_on_sets (fuel id : Nat) (tr : RelayTrigger) (s : RMState)
    (hfuel : 1 ≤ fuel) (h1 : 1 ≤ id) (h2 : id ≤ 8) :
    ((physicallyControlRelayAux fuel id true tr s).relayConfigs id).isOn = true := by
  obtain ⟨fuel, rfl⟩ : ∃ f, fuel = f + 1 := ⟨fuel - 1, by omega⟩
  have hv : ¬(id < 1 ∨ 8 < id) := by omega
  by_cases hch : (s.relayConfigs id).isOn = true
  · rw [pcr_noop _ _ _ _ _ hch]; exact hch
  have hoff : (s.relayConfigs id).isOn = false := by revert hch; simp
  rw [pcr_succ_on fuel id tr s hv hoff]
  simp

theorem mem_relayIds (j : Nat) (h1 : 1 ≤ j) (h2 : j ≤ 8) : j ∈ relayIds := by
  simp only [relayIds, List.mem_cons, List.mem_singleton]
  omega

/-- Cascade completeness at the level of one turn-off call: every relay
that depends on the target ends up off, whatever its starting state. -/
theorem pcr_cascade_off (fuel id : Nat) (tr : RelayTrigger) (s : RMState) (j : Nat)
    (hfuel : 2 ≤ fuel) (hid1 : 1 ≤ id) (hid8 : id ≤ 8)
    (hon : (s.relayConfigs id).isOn = true)
    (hj1 : 1 ≤ j) (hj8 : j ≤ 8) (hjne : j ≠ id)
    (hdep : (s.relayConfigs j).hasDependency = true)
    (hdepOn : (s.relayConfigs j).dependsOnRelay = id) :
    ((physicallyControlRelayAux fuel id false tr s).relayConfigs j).isOn = false := by
  obtain ⟨fuel, rfl⟩ : ∃ f, fuel = f + 1 := ⟨fuel - 1, by omega⟩
  have hfuel1 : 1 ≤ fuel := by omega
  have hv : ¬(id < 1 ∨ 8 < id) := by omega
  rw [pcr_succ_off fuel id tr s hv hon]
  simp only [manageDependentRelaysWith]
  have hQs2 : ((relayIds.foldl (cascadeStep (physicallyControlRelayAux fuel) id)
      ((s.writePin (s.relayConfigs id).pin false).setRelay id
        { s.relayConfigs id with isOn := false, lastTrigger := tr })).relayConfigs j).isOn
        = false := by
    refine foldl_establishes
      (fun acc => (acc.relayConfigs j).hasDependency = true
        ∧ (acc.relayConfigs j).dependsOnRelay = id)
      (fun acc => (acc.relayConfigs j).isOn = false)
      (cascadeStep (physicallyControlRelayAux fuel) id) j
      (fun acc c hI => ?_) (fun acc c hQ => ?_) (fun acc hI => ?_)
      relayIds _ (mem_relayIds j hj1 hj8) ?_
    · simp only [cascadeStep]
      split
      · exact ⟨(pcr_preserves_hasDependency fuel c false RelayTrigger.DEPENDENT acc j).trans hI.1,
          (pcr_preserves_dependsOnRelay fuel c false RelayTrigger.DEPENDENT acc j).trans hI.2⟩
      · exact hI
    · simp only [cascadeStep]
      split
      · rw [pcr_off_frozen fuel c RelayTrigger.DEPENDENT acc j hQ]; exact hQ
      · exact hQ
    · simp only [cascadeStep]
      by_cases hjon : (acc.relayConfigs j).isOn = true
      · rw [if_pos ⟨hI.1, hI.2, hjon⟩]
        exact pcr_turnoff fuel j RelayTrigger.DEPENDENT acc hfuel1 hj1 hj8
      · rw [if_neg (by simp [hjon])]
        revert hjon; simp
    · constructor
      · simpa [hjne] using hdep
      · simpa [hjne] using hdepOn
  split
  · split
    · exact hQs2
    · rw [pcr_off_frozen fuel 1 RelayTrigger.DEPENDENT _ j hQs2]; exact hQs2
  · exact hQs2

/-- The hub back-off check never fires on a dependent turn-off: turning
off any relay other than 1 leaves relay 1 untouched, as long as relay 1
itself has no dependency edge. -/
theorem pcr_hub_frame (fuel : Nat) :
    ∀ (id : Nat) (tr : RelayTrigger) (s : RMState), id ≠ 1 →
    (s.relayConfigs 1).hasDependency = false →
    (physicallyControlRelayAux fuel id false tr s).relayConfigs 1 = s.relayConfigs 1 := by
  induction fuel with
  | zero => intro _ _ s _ _; rfl
  | succ fuel IH =>
    intro id tr s hid hhub
    by_cases hv : id < 1 ∨ 8 < id
    · rw [pcr_invalid _ _ _ _ _ hv]
    by_cases hch : (s.relayConfigs id).isOn = false
    · rw [pcr_noop _ _ _ _ _ hch]
    have hon : (s.relayConfigs id).isOn = true := by revert hch; simp
    rw [pcr_succ_off fuel id tr s hv hon]
    have hmain := mdrWith_rel
      (R := fun a b => a.relayConfigs 1 = s.relayConfigs 1 → b.relayConfigs 1 = s.relayConfigs 1)
      (fun x h => h) (fun x y z hxy hyz h => hyz (hxy h))
      (physicallyControlRelayAux fuel) id
      (fun acc c h => by
        simp only [cascadeStep]
        split
        · rename_i hguard
          by_cases hc1 : c = 1
          · subst hc1
            rw [h] at hguard
            rw [hhub] at hguard
            cases hguard.1
          · rw [IH c RelayTrigger.DEPENDENT acc hc1 (by rw [h]; exact hhub)]
            exact h
        · exact h)
      (fun h1 _ => absurd h1 hid)
      ((s.writePin (s.relayConfigs id).pin false).setRelay id
        { s.relayConfigs id with isOn := false, lastTrigger := tr })
    refine hmain ?_
    have h1id : (1 : Nat) ≠ id := fun h => hid h.symm
    simp [h1id]

/-! ## Lemmas about reads and the control loop -/

/-- Reading a relay that is in AUTO mode changes nothing and reports
AUTO. -/
theorem getRelayState_auto (id now : Nat) (s : RMState) (h1 : 1 ≤ id) (h2 : id ≤ 8)
    (h : (s.relayConfigs id).state = RelayState.AUTO) :
    getRelayState id now s = (RelayState.AUTO, s) := by
  simp only [getRelayState]
  rw [if_neg (by omega : ¬(id < 1 ∨ 8 < id)), if_neg (by simp [h]), h]

/-! ## Lemmas about the dependency-ensure block -/

theorem ensureDep_frame (id : Nat) (s : RMState) (j : Nat)
    (hj : j ≠ (s.relayConfigs id).dependsOnRelay) :
    (ensureDependencyOn id s).relayConfigs j = s.relayConfigs j := by
  simp only [ensureDependencyOn, physicallyControlRelay]
  split
  · split
    · exact pcr_on_frame relayFuel _ _ s j hj
    · rfl
  · rfl

theorem ensureDep_dep_on (id dep : Nat) (s : RMState)
    (hdep : (s.relayConfigs id).hasDependency = true)
    (hdeq : (s.relayConfigs id).dependsOnRelay = dep)
    (hd1 : 1 ≤ dep) (hd8 : dep ≤ 8) :
    ((ensureDependencyOn id s).relayConfigs dep).isOn = true := by
  simp only [ensureDependencyOn, physicallyControlRelay, hdeq]
  rw [if_pos hdep]
  split
  · exact pcr_on_sets relayFuel dep RelayTrigger.DEPENDENT s (by decide) hd1 hd8
  · rename_i h; revert h; simp

theorem ensureDep_mono_on (id : Nat) (s : RMState) (j : Nat)
    (hon : (s.relayConfigs j).isOn = true) :
    ((ensureDependencyOn id s).relayConfigs j).isOn = true := by
  simp only [ensureDependencyOn, physicallyControlRelay]
  split
  · split
    · rename_i hoff
      by_cases hj : j = (s.relayConfigs id).dependsOnRelay
      · rw [hj] at hon; rw [hon] at hoff; cases hoff
      · rw [pcr_on_frame relayFuel _ _ s j hj]; exact hon
    · exact hon
  · exact hon

theorem ensureDep_globals (id : Nat) (s : RMState) : GlobEq s (ensureDependencyOn id s) := by
  simp only [ensureDependencyOn, physicallyControlRelay]
  split
  · split
    · exact pcr_globals relayFuel _ _ _ s
    · exact globEq_refl s
  · exact globEq_refl s

theorem ensureDep_drive (id : Nat) (s : RMState) (j : Nat) :
    DriveReach (s.relayConfigs j) ((ensureDependencyOn id s).relayConfigs j) := by
  simp only [ensureDependencyOn, physicallyControlRelay]
  split
  · split
    · exact pcr_drive relayFuel _ _ _ s j
    · exact driveReach_refl _
  · exact driveReach_refl _

/-! ## The humidifier tick in the dead band -/

/-- One AUTO tick of relay 5 with at least one valid sensor, inside the
operating window, with the averaged humidity strictly inside the dead
band, and relay 7 not forcing it on: isOn is held, and the facts needed
to iterate (mode, window, thresholds, the relay-7 guard) are preserved. -/
theorem humidifier_tick_hold (i : TickInputs) (now : Nat) (s : RMState)
    (hauto : (s.relayConfigs 5).state = RelayState.AUTO)
    (hsafe : (s.relayConfigs 5).isOn = true ∨ (s.relayConfigs 7).isOn = false)
    (hwin : (s.relayConfigs 5).operatingTime.isInRange i.hour i.minute = true)
    (hvalid : 0 < i.validSensors)
    (hlow : s.thresholds.humidityLow < i.avgHumidity)
    (hhigh : i.avgHumidity < s.thresholds.humidityHigh) :
    ((controlRelayStep i now 5 s).relayConfigs 5).isOn = (s.relayConfigs 5).isOn
      ∧ ((controlRelayStep i now 5 s).relayConfigs 5).state = RelayState.AUTO
      ∧ (((controlRelayStep i now 5 s).relayConfigs 5).isOn = true
          ∨ ((controlRelayStep i now 5 s).relayConfigs 7).isOn = false)
      ∧ ((controlRelayStep i now 5 s).relayConfigs 5).operatingTime
          = (s.relayConfigs 5).operatingTime
      ∧ (controlRelayStep i now 5 s).thresholds = s.thresholds := by
  by_cases hinit : s.isInit = false
  · simp only [controlRelayStep]
    rw [if_pos hinit]
    exact ⟨rfl, hauto, hsafe, rfl, rfl⟩
  simp only [controlRelayStep, physicallyControlRelay]
  rw [if_neg hinit, getRelayState_auto 5 now s (by omega) (by omega) hauto]
  simp only [ne_eq, not_true_eq_false, if_false]
  rw [if_pos ⟨hwin, hvalid⟩, if_neg (not_lt.mpr (le_of_lt hlow)), if_neg (not_le.mpr hhigh)]
  by_cases h5 : (s.relayConfigs 5).isOn = true
  · have hcond : (if (s.relayConfigs 7).isOn = true then true
        else (s.relayConfigs 5).isOn) = true := by
      split <;> simp [h5]
    rw [hcond, if_pos rfl]
    have hd5on := ensureDep_mono_on 5 s 5 h5
    rw [pcr_noop relayFuel 5 true RelayTrigger.ENVIRONMENTAL _ hd5on]
    obtain ⟨o, tt, he⟩ := ensureDep_drive 5 s 5
    refine ⟨?_, ?_, Or.inl hd5on, ?_, (ensureDep_globals 5 s).1⟩
    · rw [hd5on, h5]
    · rw [he]; simp [hauto]
    · rw [he]; simp
  · have h5f : (s.relayConfigs 5).isOn = false := by revert h5; simp
    have h7 : (s.relayConfigs 7).isOn = false := hsafe.resolve_left h5
    have hcond : (if (s.relayConfigs 7).isOn = true then true
        else (s.relayConfigs 5).isOn) = false := by
      rw [h7]; simp [h5f]
    rw [hcond, if_neg (by simp : ¬(false = true))]
    rw [pcr_noop relayFuel 5 false RelayTrigger.ENVIRONMENTAL s h5f]
    exact ⟨rfl, hauto, Or.inr h7, rfl, rfl⟩

/-- A sequence of control ticks of relay 5. -/
def runTicksRelay5 (l : List (TickInputs × Nat)) (s : RMState) : RMState :=
  l.foldl (fun acc p => controlRelayStep p.1 p.2 5 acc) s

/-! ## Concrete states and inputs used by the claims -/

/-- Manual FORCED_ON of relay 5 from the initial state: turns the hub on
first (trigger DEPENDENT), then relay 5. -/
def stateHub5On : RMState := (setRelayState 5 RelayState.ON 0 initialState).2

/-- Additionally FORCED_ON relay 2: hub plus two dependents on. -/
def stateHub25On : RMState := (setRelayState 2 RelayState.ON 0 stateHub5On).2

/-- Manual FORCED_ON of relay 3 (no dependency) followed by installing a
dependency edge 3 -> 1 with setRelayDependency. -/
def stateC1Bad : RMState :=
  (setRelayDependency 3 true 1 (setRelayState 3 RelayState.ON 0 initialState).2).2

/-- Manual FORCED_ON of relay 7 (IN/OUT fans): hub and relay 7 on. -/
def stateFans7On : RMState := (setRelayState 7 RelayState.ON 0 initialState).2

/-- Manual FORCED_ON of relay 3 at millis 1000: expiry stamped at
1000 + 5 min. -/
def stateForced3 : RMState := (setRelayState 3 RelayState.ON 1000 initialState).2

/-- One valid sensor reading 10 degrees: below the default low
temperature threshold of 20. -/
def inputsCold : TickInputs :=
  { hour := 12, minute := 0, hasReadings := true,
    upperDht := ⟨10, 60, 800, true⟩, lowerDht := ⟨0, 0, 0, false⟩, scd := ⟨0, 0, 0, false⟩ }

/-- getSensorReadings failed: zero valid sensors. -/
def inputsNone : TickInputs :=
  { hour := 12, minute := 0, hasReadings := false,
    upperDht := ⟨0, 0, 0, false⟩, lowerDht := ⟨0, 0, 0, false⟩, scd := ⟨0, 0, 0, false⟩ }

/-- One valid sensor with humidity 60: strictly between the default
humidity thresholds 50 and 85. -/
def inputsBand : TickInputs :=
  { hour := 12, minute := 0, hasReadings := true,
    upperDht := ⟨22, 60, 800, true⟩, lowerDht := ⟨0, 0, 0, false⟩, scd := ⟨0, 0, 0, false⟩ }

/-- AUTO tick of relay 6 on the initial state with the cold reading:
turns the heater on (trigger ENVIRONMENTAL). -/
def stateHeaterOn : RMState := controlRelayStep inputsCold 0 6 initialState

/-! ## Claims -/

/-- Claim C1, counterexample: the dependency safety invariant does not
hold in every reachable state.  Relay 3 is switched on manually while it
has no dependency, then setRelayDependency installs the edge 3 -> 1
without reconciling isOn, reaching a state with relay 3 dependent and
on while relay 1 is off. -/
theorem C1_reachable_violation : Reachable stateC1Bad ∧ ¬ DepSafe stateC1Bad := by
  constructor
  · exact Reachable.dependency 3 true 1 (Reachable.relayState 3 RelayState.ON 0 Reachable.init)
  · intro h
    have h3 := h 3 (by decide) (by decide) (by decide) (by decide)
    revert h3
    decide

/-- Claim C1, amended: setRelayDependency performs no isOn
reconciliation and can break dependency safety; what the code does
guarantee is the setRelayState half of the claim: forcing a relay ON
when it has a dependency edge (to a valid target other than itself)
eagerly turns the dependency on first, so right after the call both the
relay and its dependency are on. -/
theorem C1_setRelayState_ensures_dependency (id dep now : Nat) (s : RMState)
    (h1 : 1 ≤ id) (h2 : id ≤ 8)
    (hdep : (s.relayConfigs id).hasDependency = true)
    (hdeq : (s.relayConfigs id).dependsOnRelay = dep)
    (hd1 : 1 ≤ dep) (hd8 : dep ≤ 8) (hdne : dep ≠ id) :
    (((setRelayState id RelayState.ON now s).2.relayConfigs id).isOn = true)
      ∧ (((setRelayState id RelayState.ON now s).2.relayConfigs dep).isOn = true) := by
  have hv : ¬(id < 1 ∨ 8 < id) := by omega
  simp only [setRelayState, physicallyControlRelay]
  rw [if_neg hv, if_pos (by decide : RelayState.ON ≠ RelayState.AUTO)]
  simp only [show (decide (RelayState.ON = RelayState.ON)) = true from rfl,
    show (decide True) = true from rfl, if_pos rfl]
  constructor
  · exact pcr_on_sets relayFuel id RelayTrigger.MANUAL _ (by decide) h1 h2
  · rw [pcr_on_frame relayFuel id RelayTrigger.MANUAL _ dep hdne]
    exact ensureDep_dep_on id dep _ (by simp [hdep]) (by simp [hdeq]) hd1 hd8

/-- Claim C1, witness: forcing relay 2 (which depends on relay 1) ON
from the initial state leaves both relay 2 and relay 1 on. -/
theorem C1_witness :
    ((setRelayState 2 RelayState.ON 0 initialState).2.relayConfigs 2).isOn = true
      ∧ ((setRelayState 2 RelayState.ON 0 initialState).2.relayConfigs 1).isOn = true :=
  C1_setRelayState_ensures_dependency 2 1 0 initialState (by decide) (by decide)
    (by decide) (by decide) (by decide) (by decide) (by decide)

/-- Claim C2, counterexample: with the heater on and in AUTO, a tick
with zero valid sensor readings leaves relay 6 ON — the case-6 body is
guarded by validSensors > 0 with no else branch, so the heater is not
turned off. -/
theorem C2_heater_holds_counterexample :
    inputsNone.validSensors = 0
      ∧ (stateHeaterOn.relayConfigs 6).isOn = true
      ∧ (stateHeaterOn.relayConfigs 6).state = RelayState.AUTO
      ∧ ((controlRelayStep inputsNone 0 6 stateHeaterOn).relayConfigs 6).isOn = true := by
  decide

/-- Claim C2, amended: in a control tick with zero valid sensor
readings, the Decision Engine skips relay 6 (heater) entirely — the
whole tick is a no-op on the state, so relay 6 holds its prior isOn
rather than being turned OFF; relay 6 remains non-window-gated. -/
theorem C2_zero_sensors_heater_unchanged (inputs : TickInputs) (now : Nat) (s : RMState)
    (hauto : (s.relayConfigs 6).state = RelayState.AUTO)
    (hzero : inputs.validSensors = 0) :
    controlRelayStep inputs now 6 s = s := by
  simp only [controlRelayStep]
  by_cases hinit : s.isInit = false
  · rw [if_pos hinit]
  rw [if_neg hinit]
  rw [getRelayState_auto 6 now s (by omega) (by omega) hauto]
  simp [hzero]

/-- Claim C2, witness: the no-sensor tick applied to the state with the
heater on changes nothing. -/
theorem C2_witness : controlRelayStep inputsNone 0 6 stateHeaterOn = stateHeaterOn :=
  C2_zero_sensors_heater_unchanged inputsNone 0 stateHeaterOn (by decide) (by decide)

/-- Claim C3, counterexample: relay 5 depends on the hub, both are on,
and turning relay 5 off leaves the hub with no remaining dependents on —
yet the hub stays ON: the back-off check only runs when relay 1 itself
is the relay being turned off. -/
theorem C3_hub_stays_on_counterexample :
    (stateHub5On.relayConfigs 5).hasDependency = true
      ∧ (stateHub5On.relayConfigs 5).dependsOnRelay = 1
      ∧ (stateHub5On.relayConfigs 5).isOn = true
      ∧ (stateHub5On.relayConfigs 1).isOn = true
      ∧ ((physicallyControlRelayAux 9 5 false RelayTrigger.MANUAL stateHub5On).relayConfigs 5).isOn
          = false
      ∧ anyDependentOn (physicallyControlRelayAux 9 5 false RelayTrigger.MANUAL stateHub5On)
          = false
      ∧ ((physicallyControlRelayAux 9 5 false RelayTrigger.MANUAL stateHub5On).relayConfigs 1).isOn
          = true := by
  decide

/-- Claim C3, amended: turning off a dependent relay (any id other than
1) never touches the hub's record at all, as long as relay 1 itself
carries no dependency edge — the hub back-off check of
manageDependentRelays runs only when relay 1 is the relay being turned
off. -/
theorem C3_dependent_turnoff_hub_frame (fuel id : Nat) (tr : RelayTrigger) (s : RMState)
    (hid : id ≠ 1) (hhub : (s.relayConfigs 1).hasDependency = false) :
    (physicallyControlRelayAux fuel id false tr s).relayConfigs 1 = s.relayConfigs 1 :=
  pcr_hub_frame fuel id tr s hid hhub

/-- Claim C3, witness: turning off relay 5 in the hub-and-5-on state
leaves the hub's record unchanged. -/
theorem C3_witness :
    (physicallyControlRelayAux 9 5 false RelayTrigger.MANUAL stateHub5On).relayConfigs 1
      = stateHub5On.relayConfigs 1 :=
  C3_dependent_turnoff_hub_frame 9 5 RelayTrigger.MANUAL stateHub5On (by decide) (by decide)

/-- Claim C4: cascade completeness — from any state with the hub on,
turning the hub off settles to the hub off, and every relay that
depends on relay 1 and was on is off with trigger DEPENDENT recorded. -/
theorem C4_cascade_completeness (fuel : Nat) (tr : RelayTrigger) (s : RMState) (j : Nat)
    (hfuel : 2 ≤ fuel)
    (hhubOn : (s.relayConfigs 1).isOn = true)
    (hj2 : 2 ≤ j) (hj8 : j ≤ 8)
    (hdep : (s.relayConfigs j).hasDependency = true)
    (hdepOn : (s.relayConfigs j).dependsOnRelay = 1)
    (hjOn : (s.relayConfigs j).isOn = true) :
    (((physicallyControlRelayAux fuel 1 false tr s).relayConfigs 1).isOn = false)
      ∧ (((physicallyControlRelayAux fuel 1 false tr s).relayConfigs j).isOn = false)
      ∧ ((physicallyControlRelayAux fuel 1 false tr s).relayConfigs j).lastTrigger
          = RelayTrigger.DEPENDENT := by
  have hhub := pcr_turnoff fuel 1 tr s (by omega) (by omega) (by omega)
  have hjoff := pcr_cascade_off fuel 1 tr s j hfuel (by omega) (by omega) hhubOn
    (by omega) hj8 (by omega) hdep hdepOn
  rcases pcr_offDi fuel 1 tr s j (Or.inl (by omega)) with heq | ⟨_, htrig, _⟩
  · rw [heq] at hjoff
    rw [hjOn] at hjoff
    cases hjoff
  · exact ⟨hhub, hjoff, htrig⟩

/-- Claim C4, witness: with the hub and dependents 2 and 5 on, turning
the hub off leaves the hub off and relay 5 off with trigger DEPENDENT. -/
theorem C4_witness :
    (((physicallyControlRelayAux 9 1 false RelayTrigger.MANUAL stateHub25On).relayConfigs 1).isOn
        = false)
      ∧ (((physicallyControlRelayAux 9 1 false RelayTrigger.MANUAL stateHub25On).relayConfigs 5).isOn
        = false)
      ∧ ((physicallyControlRelayAux 9 1 false RelayTrigger.MANUAL stateHub25On).relayConfigs 5).lastTrigger
        = RelayTrigger.DEPENDENT :=
  C4_cascade_completeness 9 RelayTrigger.MANUAL stateHub25On 5 (by decide) (by decide)
    (by decide) (by decide) (by decide) (by decide) (by decide)

/-- Claim C5: lazy override expiry — for a relay in 1..8 whose mode is
forced (non-AUTO) with a nonzero overrideUntil, a getRelayState call
strictly past the expiry returns AUTO, and the stored mode is AUTO with
the expiry cleared to zero. -/
theorem C5_lazy_override_expiry (id now : Nat) (s : RMState)
    (h1 : 1 ≤ id) (h2 : id ≤ 8)
    (hforced : (s.relayConfigs id).state ≠ RelayState.AUTO)
    (hnz : 0 < (s.relayConfigs id).overrideUntil)
    (hpast : (s.relayConfigs id).overrideUntil < now) :
    (getRelayState id now s).1 = RelayState.AUTO
      ∧ ((getRelayState id now s).2.relayConfigs id).state = RelayState.AUTO
      ∧ ((getRelayState id now s).2.relayConfigs id).overrideUntil = 0 := by
  simp only [getRelayState]
  rw [if_neg (by omega : ¬(id < 1 ∨ 8 < id)), if_pos ⟨hforced, hnz, hpast⟩]
  simp

/-- Claim C5, witness: relay 3 forced ON at millis 1000 with the default
5-minute override; reading it at millis 301001 reports AUTO and clears
the override. -/
theorem C5_witness :
    (getRelayState 3 301001 stateForced3).1 = RelayState.AUTO
      ∧ ((getRelayState 3 301001 stateForced3).2.relayConfigs 3).state = RelayState.AUTO
      ∧ ((getRelayState 3 301001 stateForced3).2.relayConfigs 3).overrideUntil = 0 :=
  C5_lazy_override_expiry 3 301001 stateForced3 (by decide) (by decide) (by decide)
    (by decide) (by decide)

/-- Claim C6: lighting mutual exclusion — for every minute of the day,
given onDuration < interval, exactly one of relay 2's rule
(cyclePhase < onDuration) and relay 3's rule (cyclePhase ≥ onDuration)
holds, so the Decision Engine never commands both lights on in the same
tick. -/
theorem C6_lighting_mutual_exclusion (currentMinuteOfDay : Nat) (cc : CycleConfig)
    (h : cc.onDurationMinutes < cc.intervalMinutes) :
    relay2ShouldBeOn currentMinuteOfDay cc = !(relay3ShouldBeOn currentMinuteOfDay cc) := by
  simp only [relay2ShouldBeOn, relay3ShouldBeOn]
  by_cases hc : currentMinuteOfDay % cc.intervalMinutes < cc.onDurationMinutes
  · simp [hc, not_le.mpr hc]
  · simp [hc, not_lt.mp hc]

/-- Claim C6, witness: at minute 7 of the default 5/60 cycle, relay 2's
rule is false and relay 3's rule is true. -/
theorem C6_witness :
    relay2ShouldBeOn 7 ⟨5, 60⟩ = !(relay3ShouldBeOn 7 ⟨5, 60⟩) :=
  C6_lighting_mutual_exclusion 7 ⟨5, 60⟩ (by decide)

/-- Claim C7: threshold validation atomicity — whenever any low value is
not strictly below its paired high value, setEnvironmentalThresholds
returns false with the state (in particular every stored threshold
field) unchanged. -/
theorem C7_threshold_validation (hl hh tl th cl ch : ℚ) (s : RMState)
    (hbad : hh ≤ hl ∨ th ≤ tl ∨ ch ≤ cl) :
    setEnvironmentalThresholds hl hh tl th cl ch s = (false, s) := by
  simp only [setEnvironmentalThresholds]
  rw [if_pos hbad]

/-- Claim C7, witness: setThresholds with humidityLow 90 and
humidityHigh 50 fails and preserves the prior thresholds. -/
theorem C7_witness :
    setEnvironmentalThresholds 90 50 20 24 1000 1600 initialState = (false, initialState) :=
  C7_threshold_validation 90 50 20 24 1000 1600 initialState (Or.inl (by decide))

/-- Claim C8, counterexample: relay 7 is on while relay 5 is off and in
AUTO; a tick with the averaged humidity strictly inside the dead band
still turns relay 5 ON, because relay 5 is forced on whenever relay 7 is
on. -/
theorem C8_deadband_change_counterexample :
    (stateFans7On.relayConfigs 5).state = RelayState.AUTO
      ∧ (stateFans7On.relayConfigs 5).isOn = false
      ∧ (stateFans7On.relayConfigs 7).isOn = true
      ∧ (stateFans7On.relayConfigs 5).operatingTime.isInRange inputsBand.hour inputsBand.minute
          = true
      ∧ 0 < inputsBand.validSensors
      ∧ stateFans7On.thresholds.humidityLow < inputsBand.avgHumidity
      ∧ inputsBand.avgHumidity < stateFans7On.thresholds.humidityHigh
      ∧ ((controlRelayStep inputsBand 0 5 stateFans7On).relayConfigs 5).isOn = true := by
  decide

/-- Claim C8, amended: over any sequence of control ticks in which relay
5 is AUTO, the tick is inside relay 5's operating window, at least one
sensor is valid and the averaged humidity stays strictly between the
humidity thresholds, relay 5's isOn never changes — provided relay 7 is
not on while relay 5 is off at the start (relay 5 is forced on whenever
relay 7 is on). -/
theorem C8_hysteresis_no_chatter (l : List (TickInputs × Nat)) (s : RMState)
    (hauto : (s.relayConfigs 5).state = RelayState.AUTO)
    (hsafe : (s.relayConfigs 5).isOn = true ∨ (s.relayConfigs 7).isOn = false)
    (hticks : ∀ p ∈ l,
      (s.relayConfigs 5).operatingTime.isInRange p.1.hour p.1.minute = true
        ∧ 0 < p.1.validSensors
        ∧ s.thresholds.humidityLow < p.1.avgHumidity
        ∧ p.1.avgHumidity < s.thresholds.humidityHigh) :
    ((runTicksRelay5 l s).relayConfigs 5).isOn = (s.relayConfigs 5).isOn := by
  induction l generalizing s with
  | nil => rfl
  | cons p rest ih =>
    obtain ⟨hw, hv, hl, hh⟩ := hticks p (List.mem_cons_self p rest)
    obtain ⟨e1, e2, e3, e4, e5⟩ := humidifier_tick_hold p.1 p.2 s hauto hsafe hw hv hl hh
    have hrest := ih (controlRelayStep p.1 p.2 5 s) e2 e3 (fun q hq => by
      obtain ⟨hqw, hqv, hql, hqh⟩ := hticks q (List.mem_cons_of_mem p hq)
      exact ⟨by rw [e4]; exact hqw, hqv, by rw [e5]; exact hql, by rw [e5]; exact hqh⟩)
    rw [show runTicksRelay5 (p :: rest) s
        = runTicksRelay5 rest (controlRelayStep p.1 p.2 5 s) from rfl, hrest, e1]

/-- Claim C8, witness: one in-band tick on the initial state (relay 5
off, relay 7 off) leaves relay 5's isOn unchanged. -/
theorem C8_witness :
    ((runTicksRelay5 [(inputsBand, 0)] initialState).relayConfigs 5).isOn
      = (initialState.relayConfigs 5).isOn :=
  C8_hysteresis_no_chatter [(inputsBand, 0)] initialState (by decide)
    (Or.inr (by decide)) (by decide)

/-- Claim C9: setOverrideDuration rejects zero (returning false with the
state unchanged) and accepts any positive minute count, storing exactly
the argument. -/
theorem C9_setOverrideDuration_spec (m : Nat) (s : RMState) (hm : 0 < m) :
    setOverrideDuration 0 s = (false, s)
      ∧ setOverrideDuration m s = (true, { s with overrideDurationMinutes := m }) := by
  constructor
  · simp [setOverrideDuration]
  · simp only [setOverrideDuration]
    rw [if_neg (by omega)]

/-- Claim C9, witness: zero is rejected on the initial state and 30
minutes is stored exactly. -/
theorem C9_witness :
    setOverrideDuration 0 initialState = (false, initialState)
      ∧ setOverrideDuration 30 initialState
          = (true, { initialState with overrideDurationMinutes := 30 }) :=
  C9_setOverrideDuration_spec 30 initialState (by decide)

/-- Claim C10: no-op drive — calling physicallyControlRelay on a relay
in 1..8 with a turnOn equal to its current isOn leaves the entire state
(isOn, lastTrigger, pins) unchanged and cascades to nothing, at any
fuel; lastTrigger is written only on a real isOn change. -/
theorem C10_noop_drive (fuel id : Nat) (turnOn : Bool) (tr : RelayTrigger) (s : RMState)
    (h1 : 1 ≤ id) (h2 : id ≤ 8)
    (hsame : (s.relayConfigs id).isOn = turnOn) :
    physicallyControlRelayAux fuel id turnOn tr s = s :=
  pcr_noop fuel id turnOn tr s hsame

/-- Claim C10, witness: driving relay 4 (off in the initial state) to
off changes nothing. -/
theorem C10_witness :
    physicallyControlRelayAux 9 4 false RelayTrigger.MANUAL initialState = initialState :=
  C10_noop_drive 9 4 false RelayTrigger.MANUAL initialState (by decide) (by decide) (by decide)
